import Mathlib

/-!
Verification of the hash-router single-page tourism site (`app.js`).

The file shallowly embeds the logic of `app.js`: the hash router
(`handleHashChange` / `showPage`), the carousel index update
(`goToSlide`), the autoplay timer discipline (`startAutoplay` /
`stopAutoplay`), the results-page filter (`runResultsSearchFilter` and
its summary text), the map circle-range query (`renderCircleResults`)
and the detail view (`showDetail`).  DOM writes are modelled by the
data they render; JS strings are Lean strings; JS numbers are `ℤ`/`ℚ`
as appropriate.  Each claim about the spec is then settled by a
theorem below.
-/

namespace App

/-! ### JS string primitives

The JS string methods used by `app.js`, modelled over `String.data`
(the character list) so that all of them compute by structural
recursion. -/

/-- JS `sub.isPrefixOf`-style helper: does `sub` occur as a contiguous
substring of the character list?  Used to model `String.prototype.includes`. -/
def charsIncludes (sub : List Char) : List Char → Bool
  | [] => sub.isEmpty
  | c :: rest => sub.isPrefixOf (c :: rest) || charsIncludes sub rest

/-- JS `s.includes(sub)`. -/
def jsIncludes (s sub : String) : Bool := charsIncludes sub.data s.data

/-- JS `s.startsWith(pre)`. -/
def jsStartsWith (s pre : String) : Bool := pre.data.isPrefixOf s.data

/-- The whitespace class removed by JS `String.prototype.trim`
(ASCII whitespace plus the Unicode space separators, NBSP, the line
separators and the BOM). -/
def isJsWhitespace (c : Char) : Bool :=
  c = ' ' || c = '\t' || c = '\n' || c = '\r' ||
  c = '\u000B' || c = '\u000C' || c = '\u00A0' || c = '\u1680' ||
  ('\u2000' ≤ c && c ≤ '\u200A') || c = '\u2028' || c = '\u2029' ||
  c = '\u202F' || c = '\u205F' || c = '\u3000' || c = '\uFEFF'

/-- JS `s.trim()`: strip leading and trailing whitespace. -/
def jsTrim (s : String) : String :=
  String.mk (((s.data.dropWhile isJsWhitespace).reverse.dropWhile isJsWhitespace).reverse)

/-- JS `s.toLowerCase()` (the dataset only exercises ASCII letters and
Japanese text, on which ASCII lowercasing agrees with JS). -/
def jsToLower (s : String) : String := String.mk (s.data.map Char.toLower)

/-! ### Router (`pages`, `showPage`, `handleHashChange`) -/

/-- The four page sections of the single HTML document. -/
inductive Page
  | top
  | results
  | map
  | detail
  deriving DecidableEq

/-- The key under which each page element is stored in the `pages` object. -/
def pageName : Page → String
  | .top => "top"
  | .results => "results"
  | .map => "map"
  | .detail => "detail"

/-- The own keys of the `pages` object literal
(`{ top: ..., results: ..., map: ..., detail: ... }`). -/
def pageKeys : List String := ["top", "results", "map", "detail"]

/-- The property names a plain object literal inherits from
`Object.prototype`.  The JS `in` operator walks the prototype chain, so
`hash in pages` is also true for every name in this list. -/
def objectPrototypeKeys : List String :=
  ["constructor", "hasOwnProperty", "isPrototypeOf", "propertyIsEnumerable",
   "toLocaleString", "toString", "valueOf",
   "__defineGetter__", "__defineSetter__", "__lookupGetter__", "__lookupSetter__",
   "__proto__"]

/-- All page sections, in the order they appear in the `pages` object. -/
def allPages : List Page := [Page.top, Page.results, Page.map, Page.detail]

/-- Function `showPage(name)`: sets `el.hidden = (key !== name)` on every page
element; the result is the `hidden` flag of each page. -/
def showPage (name : String) (p : Page) : Bool := pageName p != name

/-- The pages left visible (`hidden = false`) after `showPage name`. -/
def visiblePages (name : String) : List Page :=
  allPages.filter (fun p => !(showPage name p))

/-- Function `handleHashChange`, on the hash fragment (the part of `location.hash`
after the `#`, so `location.hash.replace` is already applied; the empty
fragment defaults to `"top"` via `|| 'top'`).  Returns the name passed to
`showPage` together with the spot id passed to `showDetail` (when the
`detail:` branch runs, with `parts[1] || ''`).  The test `hash in pages`
is true for the four own keys and for every property name inherited from
`Object.prototype`. -/
def handleHashChange (fragment : String) : String × Option String :=
  let hash := if fragment = "" then "top" else fragment
  if hash ∈ pageKeys ∨ hash ∈ objectPrototypeKeys then (hash, none)
  else if jsStartsWith hash "detail:" then
    ("detail", some ((hash.splitOn ":").getD 1 ""))
  else ("top", none)

/-! ### Carousel (`goToSlide`, autoplay timers) -/

/-- Function `goToSlide(index)`: the index that is committed to `currentIndex`.
The source clamps sequentially:
`if (index < 0) index = slides.length - 1; if (index >= slides.length) index = 0;`. -/
def goToSlide (index : ℤ) (slideCount : ℕ) : ℤ :=
  let i1 := if index < 0 then (slideCount : ℤ) - 1 else index
  let i2 := if i1 ≥ (slideCount : ℤ) then 0 else i1
  i2

/-- Timer environment of the carousel: the `autoplayTimer` variable, the
set of interval timers currently scheduled by the host, and the next
fresh timer id (browser interval ids are positive, so `if (autoplayTimer)`
is an `isSome` test). -/
structure TimerState where
  autoplayTimer : Option ℕ
  active : List ℕ
  nextId : ℕ
  deriving DecidableEq

/-- Host `setInterval(...)`: schedule a fresh timer, return its id. -/
def setIntervalTimer (s : TimerState) : ℕ × TimerState :=
  (s.nextId, ⟨s.autoplayTimer, s.active ++ [s.nextId], s.nextId + 1⟩)

/-- Host `clearInterval(id)`: cancel the timer with that id. -/
def clearIntervalTimer (id : ℕ) (s : TimerState) : TimerState :=
  ⟨s.autoplayTimer, s.active.filter (fun t => t ≠ id), s.nextId⟩

/-- Function `stopAutoplay()`: when `autoplayTimer` is set, clear it and null the variable. -/
def stopAutoplay (s : TimerState) : TimerState :=
  match s.autoplayTimer with
  | some t =>
    let s1 := clearIntervalTimer t s
    ⟨none, s1.active, s1.nextId⟩
  | none => s

/-- Function `startAutoplay()`: first `stopAutoplay()`, then store a fresh `setInterval` id. -/
def startAutoplay (s : TimerState) : TimerState :=
  let s1 := stopAutoplay s
  let p := setIntervalTimer s1
  ⟨some p.1, p.2.active, p.2.nextId⟩

/-- Consistency of the timer environment: the host's scheduled timers are
exactly the one tracked by `autoplayTimer`, and every tracked id is stale
relative to the fresh-id counter. -/
def TimerInv (s : TimerState) : Prop :=
  s.active = s.autoplayTimer.toList ∧ ∀ t ∈ s.active, t < s.nextId

/-! ### Dataset (`DUMMY_SPOTS`) and results-page filter -/

/-- One record of the fixed dataset. -/
structure Spot where
  id : String
  title : String
  region : String
  category : String
  desc : String
  color : String
  deriving DecidableEq

/-- The fixed six-record dataset `DUMMY_SPOTS`. -/
def DUMMY_SPOTS : List Spot :=
  [⟨"s1", "藍染工房の体験", "愛知県/東海市", "crafts", "藍の深い青を自分の手で", "#2f5a40"⟩,
   ⟨"s2", "夏祭りの太鼓", "京都府/京都市", "festival", "響く太鼓と練り歩き", "#a83a2f"⟩,
   ⟨"s3", "郷土料理教室", "青森県/弘前市", "food", "季節に寄り添う味", "#3d4f66"⟩,
   ⟨"s4", "町家建築めぐり", "京都府/宇治市", "architecture", "古い町家の意匠を学ぶ", "#6a4a3b"⟩,
   ⟨"s5", "陶芸の里の工房訪問", "愛知県/岡崎市", "experience", "土と火の美を体験", "#865a3f"⟩,
   ⟨"s6", "伝承語りの夜", "青森県/青森市", "folklore", "語り部が継ぐ物語", "#385b71"⟩]

/-- The criteria read from the results form by `runResultsSearch`:
the raw keyword field, `prefSelect.value || ''`, the resolved city
(`''` when the city select is disabled or empty), and the checked
category values in document order. -/
structure Criteria where
  keyword : String
  pref : String
  city : String
  cats : List String
  deriving DecidableEq

/-- The keyword test of `runResultsSearch`: after lowercasing, `k` must
occur in the lowercased title, description or region. -/
def matchesKeyword (k : String) (s : Spot) : Bool :=
  jsIncludes (jsToLower s.title) k ||
  jsIncludes (jsToLower s.desc) k ||
  jsIncludes (jsToLower s.region) k

/-- The filtering part of `runResultsSearch`: starting from a copy of the
dataset, apply the keyword, prefecture, city and category filters in
order, each one only when its criterion is set. -/
def runResultsSearchFilter (c : Criteria) (spots : List Spot) : List Spot :=
  let kw := jsTrim c.keyword
  let l1 := if kw ≠ "" then spots.filter (matchesKeyword (jsToLower kw)) else spots
  let l2 := if c.pref ≠ "" then l1.filter (fun s => jsStartsWith s.region c.pref) else l1
  let l3 := if c.city ≠ "" then l2.filter (fun s => jsIncludes s.region ("/" ++ c.city)) else l2
  let l4 := if c.cats ≠ [] then l3.filter (fun s => c.cats.contains s.category) else l3
  l4

/-- The summary text `resultsDesc.textContent` built by
`runResultsSearch`: one clause per active criterion in the fixed order
keyword, prefecture, city, categories, joined by `、`; with no active
criterion, the generic message. -/
def runResultsSearchSummary (c : Criteria) : String :=
  let kw := jsTrim c.keyword
  let parts : List String :=
    (if kw ≠ "" then ["キーワード：「" ++ kw ++ "」"] else []) ++
    (if c.pref ≠ "" then ["都道府県：「" ++ c.pref ++ "」"] else []) ++
    (if c.city ≠ "" then ["市町村：「" ++ c.city ++ "」"] else []) ++
    (if c.cats ≠ [] then ["カテゴリ：" ++ String.intercalate " / " c.cats] else [])
  if parts ≠ [] then String.intercalate "、" parts
  else "条件に合致したスポットを表示します"

/-- The criteria of an empty results form. -/
def emptyCriteria : Criteria := ⟨"", "", "", []⟩

/-! ### Map circle range (`SPOT_COORDS`, `renderCircleResults`) -/

/-- A point of the pseudo-map coordinate plane. -/
structure Coord where
  x : ℚ
  y : ℚ
  deriving DecidableEq

/-- The fixed pseudo-coordinate table `SPOT_COORDS`, keyed by spot id. -/
def SPOT_COORDS (id : String) : Option Coord :=
  if id = "s1" then some ⟨260, 200⟩
  else if id = "s2" then some ⟨520, 240⟩
  else if id = "s3" then some ⟨200, 140⟩
  else if id = "s4" then some ⟨500, 260⟩
  else if id = "s5" then some ⟨320, 220⟩
  else if id = "s6" then some ⟨180, 120⟩
  else none

/-- The distance test of `renderCircleResults`:
`Math.sqrt(dx*dx + dy*dy) <= r`.  Over the reals this holds exactly when
`r` is non-negative and `dx*dx + dy*dy ≤ r*r`, which is the squared form
used here. -/
def inCircle (cx cy r : ℚ) (c : Coord) : Bool :=
  let dx := c.x - cx
  let dy := c.y - cy
  decide (0 ≤ r) && decide (dx * dx + dy * dy ≤ r * r)

/-- The spot selection of `renderCircleResults`: the spots whose
coordinate exists in `SPOT_COORDS` and lies inside the circle
(spots with no coordinate are dropped by `if (!c) return false`). -/
def renderCircleResultsInside (cx cy r : ℚ) (spots : List Spot) : List Spot :=
  spots.filter (fun s =>
    match SPOT_COORDS s.id with
    | none => false
    | some c => inCircle cx cy r c)

/-! ### Detail view (`showDetail`) -/

/-- JS `encodeURIComponent` restricted to the dataset's color strings,
which consist of `#` (escaped to `%23`) and unreserved characters. -/
def encodeColor (s : String) : String :=
  String.mk (List.flatten (s.data.map
    (fun ch => if ch = '#' then ['%', '2', '3'] else [ch])))

/-- What `showDetail` renders: the text contents of the title, region
and description nodes, the fill color of the placeholder image, the
extra-info list items, and whether the AR (3D model) area is shown. -/
structure DetailView where
  titleText : String
  regionText : String
  descText : String
  imgFill : String
  extraItems : List String
  arVisible : Bool
  deriving DecidableEq

/-- The fixed extra-info items written on a successful lookup. -/
def detailExtraItems : List String :=
  ["営業時間：9:00〜17:00",
   "体験料金：2,000円〜（内容により変動）",
   "アクセス：最寄り駅からバスで約20分",
   "備考：要予約・休業日は施設に確認"]

/-- The fixed placeholder rendered when the spot id is unknown
(gray image, empty extra info, AR area hidden). -/
def notFoundDetail : DetailView :=
  ⟨"詳細情報がありません", "",
   "選択されたスポットの詳細情報が見つかりません。",
   "%23e0e0e0", [], false⟩

/-- Function `showDetail(spotId)`: look the id up in `DUMMY_SPOTS`; on a miss
render the fixed placeholder, otherwise render the spot, showing the AR
area only for the hardcoded id `s5`.  A total function: no branch throws. -/
def showDetail (spotId : String) : DetailView :=
  match DUMMY_SPOTS.find? (fun s => s.id == spotId) with
  | none => notFoundDetail
  | some spot =>
    ⟨spot.title, "地域：" ++ spot.region, spot.desc ++ "（詳細ページサンプル）",
     encodeColor spot.color, detailExtraItems, spot.id == "s5"⟩

/-! ## Router theorems -/

/-- Case analysis for the name the router passes to `showPage`: it is one
of the four page keys, or it is the fragment itself when that fragment is
a property name inherited from `Object.prototype`. -/
theorem handleHashChange_fst_cases (fragment : String) :
    (handleHashChange fragment).1 ∈ pageKeys ∨
    ((handleHashChange fragment).1 = fragment ∧
     fragment ∈ objectPrototypeKeys) := by
  simp only [handleHashChange]
  by_cases he : fragment = ""
  · subst he; left; decide
  · rw [if_neg he]
    by_cases h1 : fragment ∈ pageKeys
    · rw [if_pos (Or.inl h1)]; exact Or.inl h1
    · by_cases h1b : fragment ∈ objectPrototypeKeys
      · rw [if_pos (Or.inr h1b)]; exact Or.inr ⟨rfl, h1b⟩
      · rw [if_neg (not_or.mpr ⟨h1, h1b⟩)]
        by_cases h2 : jsStartsWith fragment "detail:" = true
        · rw [if_pos h2]; left
          show ("detail" : String) ∈ pageKeys
          decide
        · rw [if_neg h2]; left
          show ("top" : String) ∈ pageKeys
          decide

/-- Claim C1, counterexample: the bare token `detail` is not one of
`top`, `results`, `map` and does not have the shape `detail:<id>`, yet
`handleHashChange` activates the `detail` page for it (the `pages`
object has an own key `detail`, so `'detail' in pages` holds), not the
`top` page. -/
theorem handleHashChange_detail_token_cex :
    ("detail" ∉ (["top", "results", "map"] : List String)) ∧
    jsStartsWith "detail" "detail:" = false ∧
    (handleHashChange "detail").1 = "detail" ∧
    (handleHashChange "detail").1 ≠ "top" := by decide

/-- Claim C1, amended: every token that is not visible on the `pages`
object through the JS `in` operator (so neither one of the four own keys
`top`, `results`, `map`, `detail` nor a property name inherited from
`Object.prototype`) and that does not start with `detail:` makes the
router activate the `top` page. -/
theorem handleHashChange_unknown_token_top (t : String) (h1 : t ∉ pageKeys)
    (h1b : t ∉ objectPrototypeKeys)
    (h2 : jsStartsWith t "detail:" = false) :
    (handleHashChange t).1 = "top" := by
  simp only [handleHashChange]
  by_cases he : t = ""
  · subst he; decide
  · rw [if_neg he, if_neg (not_or.mpr ⟨h1, h1b⟩), if_neg (by simp [h2])]

/-- Witness for the amended claim C1 at the concrete token `foo`. -/
theorem handleHashChange_unknown_token_top_witness :
    ("foo" ∉ pageKeys) ∧ ("foo" ∉ objectPrototypeKeys) ∧
    jsStartsWith "foo" "detail:" = false ∧
    (handleHashChange "foo").1 = "top" :=
  ⟨by decide, by decide, by decide,
   handleHashChange_unknown_token_top "foo" (by decide) (by decide) (by decide)⟩

/-- Claim C2, counterexample: the token `toString` is handled by the
router through the `hash in pages` branch (`toString` is inherited from
`Object.prototype`, and the JS `in` operator walks the prototype chain),
so `showPage('toString')` runs and sets `hidden = (key !== 'toString')`,
i.e. `true`, on every one of the four pages: zero pages remain visible,
refuting mutual exclusion for a token handled by the router. -/
theorem router_toString_cex :
    (handleHashChange "toString").1 = "toString" ∧
    (visiblePages (handleHashChange "toString").1).length = 0 := by decide

/-- Claim C2, amended: after any page activation through the router at
most one page is visible; exactly one page is visible unless the token
is a property name inherited from `Object.prototype` (for those tokens
`showPage` receives a name matching no page key and every one of the
four pages ends hidden). -/
theorem router_page_visibility (fragment : String) :
    (visiblePages (handleHashChange fragment).1).length = 1 ∨
    (fragment ∈ objectPrototypeKeys ∧
     (visiblePages (handleHashChange fragment).1).length = 0) := by
  rcases handleHashChange_fst_cases fragment with h | ⟨heq, hm⟩
  · left
    simp only [pageKeys, List.mem_cons, List.not_mem_nil, or_false] at h
    rcases h with h | h | h | h <;> rw [h] <;> decide
  · right
    refine ⟨hm, ?_⟩
    rw [heq]
    simp only [objectPrototypeKeys, List.mem_cons, List.not_mem_nil,
      or_false] at hm
    rcases hm with h | h | h | h | h | h | h | h | h | h | h | h <;>
      rw [h] <;> decide

/-! ## Carousel theorems -/

/-- Claim C3, counterexample: with 4 slides, `goToSlide(-2)` commits
index 3 (the last slide), not `(-2) mod 4 = 2`; the source clamps out-of-
range indices instead of reducing them modulo the slide count. -/
theorem goToSlide_not_modulo_cex :
    goToSlide (-2) 4 = 3 ∧ (-2 : ℤ) % 4 = 2 ∧
    goToSlide (-2) 4 ≠ (-2 : ℤ) % 4 := by decide

/-- Claim C3, amended: `goToSlide` agrees with the modulo rule exactly on
single-step wrapping, i.e. for indices in `[-1, n]` (so `goTo(-1)` wraps
to `n-1`, `goTo(n)` wraps to `0`, in-range indices are kept); outside
that range it clamps: any negative index yields `n-1` and any index
`≥ n` yields `0`. -/
theorem goToSlide_wrap_clamp (index : ℤ) (n : ℕ) (h : 0 < n) :
    (-1 ≤ index → index ≤ (n : ℤ) → goToSlide index n = index % (n : ℤ)) ∧
    (index < 0 → goToSlide index n = (n : ℤ) - 1) ∧
    ((n : ℤ) ≤ index → goToSlide index n = 0) := by
  have em1 : (-1 : ℤ) % (n : ℤ) = (n : ℤ) - 1 := by
    rw [show (-1 : ℤ) = ((n : ℤ) - 1) - (n : ℤ) by ring,
      Int.sub_emod, Int.emod_self, sub_zero, Int.emod_emod_of_dvd _ (dvd_refl _),
      Int.emod_eq_of_lt (by omega) (by omega)]
  have em2 : (n : ℤ) % (n : ℤ) = 0 := Int.emod_self
  simp only [goToSlide]
  refine ⟨fun h1 h2 => ?_, fun h1 => ?_, fun h1 => ?_⟩
  · split_ifs with ha hb
    · omega
    · have hx : index = -1 := by omega
      subst hx; omega
    · have hx : index = (n : ℤ) := by omega
      subst hx; omega
    · have em3 : index % (n : ℤ) = index :=
        Int.emod_eq_of_lt (by omega) (by omega)
      omega
  · split_ifs <;> omega
  · split_ifs <;> omega

/-- Witness for the amended claim C3 at index `-1` with 4 slides. -/
theorem goToSlide_wrap_clamp_witness :
    (0 < 4 ∧ -1 ≤ (-1 : ℤ) ∧ (-1 : ℤ) ≤ (4 : ℤ)) ∧
    goToSlide (-1) 4 = (-1 : ℤ) % (4 : ℤ) :=
  ⟨⟨by decide, by decide, by decide⟩,
   (goToSlide_wrap_clamp (-1) 4 (by decide)).1 (by decide) (by decide)⟩

/-- Claim C4: for a positive slide count, the index committed by
`goToSlide` always lies in `[0, slideCount)`. -/
theorem goToSlide_in_range (index : ℤ) (n : ℕ) (h : 0 < n) :
    0 ≤ goToSlide index n ∧ goToSlide index n < (n : ℤ) := by
  simp only [goToSlide]
  constructor <;> split_ifs <;> omega

/-- Witness for claim C4 at the out-of-range index `-2` with 4 slides. -/
theorem goToSlide_in_range_witness :
    0 < 4 ∧ 0 ≤ goToSlide (-2) 4 ∧ goToSlide (-2) 4 < (4 : ℤ) :=
  ⟨by decide, goToSlide_in_range (-2) 4 (by decide)⟩

/-! ## Filter theorems -/

/-- Claim C5: with no criteria at all (empty keyword, no prefecture, no
city, no categories) the search leaves the dataset unchanged and the
summary is the generic showing-all message, not a clause list. -/
theorem runResultsSearch_no_criteria (spots : List Spot) :
    runResultsSearchFilter emptyCriteria spots = spots ∧
    runResultsSearchSummary emptyCriteria = "条件に合致したスポットを表示します" :=
  ⟨rfl, rfl⟩

/-- Trimming the empty keyword is a no-op. -/
theorem jsTrim_empty : jsTrim "" = "" := rfl

/-- Claim C9: the keyword is trimmed before use, so a keyword that is
all whitespace is never applied as a criterion: the search result is the
one with no keyword at all. -/
theorem keyword_whitespace_ignored (raw : String) (c : Criteria)
    (spots : List Spot) (h : jsTrim raw = "") :
    runResultsSearchFilter ⟨raw, c.pref, c.city, c.cats⟩ spots =
      runResultsSearchFilter ⟨"", c.pref, c.city, c.cats⟩ spots := by
  simp [runResultsSearchFilter, h, jsTrim_empty]

/-- Witness for claim C9: a keyword of two spaces filters exactly like
the empty keyword. -/
theorem keyword_whitespace_ignored_witness :
    jsTrim "  " = "" ∧
    runResultsSearchFilter ⟨"  ", "", "", []⟩ DUMMY_SPOTS =
      runResultsSearchFilter ⟨"", "", "", []⟩ DUMMY_SPOTS :=
  ⟨rfl, keyword_whitespace_ignored "  " ⟨"", "", "", []⟩ DUMMY_SPOTS rfl⟩

/-- Each filtering stage of the search only removes records. -/
theorem ite_filter_sublist {α : Type} (b : Prop) [Decidable b]
    (p : α → Bool) (l : List α) :
    (if b then l.filter p else l).Sublist l := by
  by_cases h : b
  · rw [if_pos h]; exact List.filter_sublist l
  · rw [if_neg h]

/-- Claim C10: for every combination of criteria the result list is an
order-preserving subsequence of the input list: filtering only removes
records, never reorders them. -/
theorem runResultsSearch_sublist (c : Criteria) (spots : List Spot) :
    (runResultsSearchFilter c spots).Sublist spots := by
  simp only [runResultsSearchFilter]
  exact (ite_filter_sublist _ _ _).trans ((ite_filter_sublist _ _ _).trans
    ((ite_filter_sublist _ _ _).trans (ite_filter_sublist _ _ _)))

/-! ## Map circle-range theorems -/

/-- Claim C6: for a fixed circle center and the fixed coordinate table,
the circle query is monotonic in the radius: every spot inside radius
`r1 ≤ r2` is also inside radius `r2` (the boundary being inclusive). -/
theorem renderCircleResults_monotone (cx cy r1 r2 : ℚ) (h : r1 ≤ r2)
    (s : Spot) (hs : s ∈ renderCircleResultsInside cx cy r1 DUMMY_SPOTS) :
    s ∈ renderCircleResultsInside cx cy r2 DUMMY_SPOTS := by
  rw [renderCircleResultsInside, List.mem_filter] at hs ⊢
  refine ⟨hs.1, ?_⟩
  have hp := hs.2
  cases hc : SPOT_COORDS s.id with
  | none => rw [hc] at hp; simp at hp
  | some c =>
    rw [hc] at hp
    simp only [inCircle, Bool.and_eq_true, decide_eq_true_eq] at hp ⊢
    obtain ⟨h0, hd⟩ := hp
    exact ⟨le_trans h0 h, le_trans hd (mul_self_le_mul_self h0 h)⟩

/-- Witness for claim C6: the spot `s1` at `(260, 200)` is inside the
circle centered at `(300, 200)` for radius 40 and stays inside for
radius 80. -/
theorem renderCircleResults_monotone_witness :
    ((40 : ℚ) ≤ 80) ∧
    (⟨"s1", "藍染工房の体験", "愛知県/東海市", "crafts",
       "藍の深い青を自分の手で", "#2f5a40"⟩ : Spot) ∈
      renderCircleResultsInside 300 200 40 DUMMY_SPOTS ∧
    (⟨"s1", "藍染工房の体験", "愛知県/東海市", "crafts",
       "藍の深い青を自分の手で", "#2f5a40"⟩ : Spot) ∈
      renderCircleResultsInside 300 200 80 DUMMY_SPOTS := by
  have h40 : (⟨"s1", "藍染工房の体験", "愛知県/東海市", "crafts",
       "藍の深い青を自分の手で", "#2f5a40"⟩ : Spot) ∈
      renderCircleResultsInside 300 200 40 DUMMY_SPOTS := by
    rw [renderCircleResultsInside, List.mem_filter]
    refine ⟨by decide, ?_⟩
    simp only [SPOT_COORDS, inCircle]
    norm_num
  exact ⟨by norm_num, h40,
    renderCircleResults_monotone 300 200 40 80 (by norm_num) _ h40⟩

/-! ## Detail-view theorems -/

/-- Claim C7: for every spot id absent from the dataset (the empty
string included), `showDetail` renders the fixed not-found placeholder
and hides the AR (3D model) area; `showDetail` is a total function, so
no such lookup throws. -/
theorem showDetail_unknown_id (spotId : String)
    (h : DUMMY_SPOTS.find? (fun s => s.id == spotId) = none) :
    showDetail spotId = notFoundDetail ∧
    (showDetail spotId).arVisible = false := by
  have h1 : showDetail spotId = notFoundDetail := by
    unfold showDetail
    rw [h]
  exact ⟨h1, by rw [h1]; rfl⟩

/-- Witness for claim C7 at the empty spot id. -/
theorem showDetail_unknown_id_witness :
    DUMMY_SPOTS.find? (fun s => s.id == "") = none ∧
    showDetail "" = notFoundDetail ∧ (showDetail "").arVisible = false :=
  ⟨by decide, showDetail_unknown_id "" (by decide)⟩

/-! ## Autoplay-timer theorems -/

/-- Claim C8: from any consistent timer state, `startAutoplay` first
cancels the previously scheduled autoplay timer (the old id is no longer
active) and then schedules a new one, leaving exactly one active timer
and a consistent state; so at most one autoplay timer is ever active. -/
theorem startAutoplay_single_timer (s : TimerState) (h : TimerInv s) :
    (startAutoplay s).active.length = 1 ∧
    (∀ t, s.autoplayTimer = some t → t ∉ (startAutoplay s).active) ∧
    TimerInv (startAutoplay s) := by
  obtain ⟨a, act, nid⟩ := s
  obtain ⟨h1, h2⟩ := h
  cases a with
  | none =>
    simp only [Option.toList] at h1
    subst h1
    have hstep : startAutoplay ⟨none, [], nid⟩ = ⟨some nid, [nid], nid + 1⟩ := by
      simp [startAutoplay, stopAutoplay, setIntervalTimer]
    rw [hstep]
    refine ⟨rfl, fun t ht => absurd ht (by simp), rfl, ?_⟩
    intro t ht
    have ht2 : t ∈ [nid] := ht
    simp only [List.mem_singleton] at ht2
    show t < nid + 1
    omega
  | some t0 =>
    simp only [Option.toList] at h1
    subst h1
    have ht0 : t0 < nid := h2 t0 (by simp)
    have hstep : startAutoplay ⟨some t0, [t0], nid⟩ =
        ⟨some nid, [nid], nid + 1⟩ := by
      simp [startAutoplay, stopAutoplay, clearIntervalTimer, setIntervalTimer]
    rw [hstep]
    refine ⟨rfl, ?_, rfl, ?_⟩
    · intro t ht
      have htt : t0 = t := by injection ht
      subst htt
      show t0 ∉ [nid]
      simp only [List.mem_singleton]
      omega
    · intro t ht
      have ht2 : t ∈ [nid] := ht
      simp only [List.mem_singleton] at ht2
      show t < nid + 1
      omega

/-- Witness for claim C8: restarting autoplay while timer 1 is running
cancels it and leaves exactly the fresh timer active. -/
theorem startAutoplay_single_timer_witness :
    TimerInv ⟨some 1, [1], 2⟩ ∧
    ((startAutoplay ⟨some 1, [1], 2⟩).active.length = 1 ∧
     (∀ t, (⟨some 1, [1], 2⟩ : TimerState).autoplayTimer = some t →
        t ∉ (startAutoplay ⟨some 1, [1], 2⟩).active) ∧
     TimerInv (startAutoplay ⟨some 1, [1], 2⟩)) :=
  ⟨⟨rfl, by decide⟩, startAutoplay_single_timer ⟨some 1, [1], 2⟩ ⟨rfl, by decide⟩⟩

end App
